import Mathlib

/-! SD card wrapper (`src/src/SD.cpp`): card-presence state machine

A shallow embedding of `SDClass::begin` and `SDClass::mediaPresent`.

* The object state is the pair of members `csPin_`, `cardPreviouslyPresent`,
  together with the function-local static `em_cd_detected` of `mediaPresent`.
* Every call into the SdFat driver, the pin primitives and the clock is an
  input of the call (`Env`), and every call that has an effect on the outside
  is recorded, in program order, in the returned trace of `Event`s.
* The preprocessor symbols the file branches on (`BUILTIN_SDCARD`, `__arm__`)
  and the board constants it uses (`NUM_DIGITAL_PINS`, `_SD_DAT3`) are the
  fields of `Platform`.
* `uint8_t` and `uint32_t` values are natural numbers; the only arithmetic in
  the file is the 32-bit subtraction inside the elapsed-time counter, which is
  reduced modulo `2 ^ 32`.
-/

namespace SD

/-! ## Constants -/

/-- Line 29: `CPP_PRESENT=0x80`. -/
def CPP_PRESENT : Nat := 0x80

/-- Line 29: `CPP_CD_ACTIVE=0x40`. -/
def CPP_CD_ACTIVE : Nat := 0x40

/-- Line 29: `CPP_CD_DETECTED=0x20`. -/
def CPP_CD_DETECTED : Nat := 0x20

/-- Line 113: `#define MAX_CD_DETECTED_TEST 5000`. -/
def MAX_CD_DETECTED_TEST : Nat := 5000

/-- The compile-time environment of `SD.cpp`.  `BUILTIN_SDCARD` is `none` when
the macro is not defined (every `#ifdef BUILTIN_SDCARD` block is then dropped)
and `some b` when it is defined with value `b`; `arm` is `__arm__`;
`SD_DAT3` is the board constant `_SD_DAT3` of lines 30-36. -/
structure Platform where
  BUILTIN_SDCARD : Option Nat
  NUM_DIGITAL_PINS : Nat
  SD_DAT3 : Nat
  arm : Bool
  deriving DecidableEq, Repr

/-- Teensy 4.1: `BUILTIN_SDCARD = 254`, 55 digital pins, `_SD_DAT3 = 46`. -/
def teensy41 : Platform := ⟨some 254, 55, 46, true⟩

/-- A board without `BUILTIN_SDCARD` (SPI only), 20 digital pins. -/
def spiOnly : Platform := ⟨none, 20, 0, false⟩

/-! ## State, inputs and effects -/

/-- The mutable state: the members `csPin_` and `cardPreviouslyPresent` of
`SDClass`, and the function-local static `em_cd_detected` of `mediaPresent`
(line 112), which is `none` until control first passes through its declaration
and afterwards holds the counter's private start time. -/
structure SDClass where
  csPin_ : Nat
  cardPreviouslyPresent : Nat
  em_cd_detected : Option Nat
  deriving DecidableEq, Repr

/-- Calls made to the driver and to the pin primitives, in program order. -/
inductive Event where
  /-- `FsDateTime::setCallback(dateTime)`, line 58. -/
  | setCallback
  /-- `sdfs.begin(SdioConfig(FIFO_SDIO))`, line 62. -/
  | beginBuiltin
  /-- `sdfs.begin(SdSpiConfig(csPin, SHARED_SPI, SD_SCK_MHZ(25)))`, line 72. -/
  | beginSpi (csPin : Nat)
  /-- `pinMode(pin, INPUT_PULLDOWN)`. -/
  | pinModePulldown (pin : Nat)
  /-- `card->status()`, line 123. -/
  | status
  /-- `card->readCID(&cid)`, line 130. -/
  | readCID
  /-- `sdfs.restart()`. -/
  | restart
  /-- `digitalReadFast(pin)`, line 166. -/
  | digitalReadFast (pin : Nat)
  deriving DecidableEq, Repr

/-- What the outside world answers during one call of `mediaPresent`. -/
structure Env where
  /-- `sdfs.card()` is not the null pointer. -/
  card : Bool
  /-- The value of `card->status()`. -/
  status : Nat
  /-- The value of `card->readCID(&cid)`. -/
  readCID : Bool
  /-- The value of `sdfs.restart()`. -/
  restart : Bool
  /-- The value of `digitalReadFast(_SD_DAT3)` (true = high). -/
  dat3 : Bool
  /-- The value of `millis()` during the call. -/
  millis : Nat
  deriving DecidableEq, Repr

/-- The result of a call: the returned boolean, the state afterwards and the
external calls made. -/
structure Outcome where
  ret : Bool
  state : SDClass
  trace : List Event
  deriving DecidableEq, Repr

/-- Modelled from the spec: the counter type `elapsedMillis` is declared
outside `src/`; section 5 of the spec describes it as an elapsed-time counter
compared against a constant.  Its reading is the 32-bit difference between
the current `millis()` and the counter's start time. -/
def elapsed (start now : Nat) : Nat :=
  (now % 2 ^ 32 + 2 ^ 32 - start % 2 ^ 32) % 2 ^ 32

/-! ## `SDClass::begin` (lines 55-77) -/

/-- `SDClass::begin(csPin)`; `mount` is the value the one call of
`sdfs.begin` returns, if one is made. -/
def begin (P : Platform) (self : SDClass) (csPin : Nat) (mount : Bool) : Outcome :=
  let self : SDClass := ⟨csPin, self.cardPreviouslyPresent, self.em_cd_detected⟩
  let t0 : List Event := if P.arm then [Event.setCallback] else []
  if P.BUILTIN_SDCARD = some csPin then
    let ret := mount
    if !ret then
      ⟨ret, ⟨self.csPin_, CPP_CD_ACTIVE, self.em_cd_detected⟩,
        t0 ++ [Event.beginBuiltin, Event.pinModePulldown P.SD_DAT3]⟩
    else
      ⟨ret, ⟨self.csPin_, 0, self.em_cd_detected⟩, t0 ++ [Event.beginBuiltin]⟩
  else if csPin < P.NUM_DIGITAL_PINS then
    let ret := mount
    ⟨ret, ⟨self.csPin_, if ret then CPP_PRESENT else 0, self.em_cd_detected⟩,
      t0 ++ [Event.beginSpi csPin]⟩
  else
    ⟨false, self, t0⟩

/-! ## `SDClass::mediaPresent` (lines 108-188) -/

/-- Lines 110-114: the static `em_cd_detected` is constructed, with start time
`millis()`, the first time the function runs (only under `BUILTIN_SDCARD`). -/
def initCounter (P : Platform) (self : SDClass) (w : Env) : Option Nat :=
  if P.BUILTIN_SDCARD.isSome then
    match self.em_cd_detected with
    | none => some (w.millis % 2 ^ 32)
    | some m => some m
  else self.em_cd_detected

/-- Lines 122-126: the status word `s`; read from the card under
`BUILTIN_SDCARD`, the constant `0xFFFFFFFF` otherwise. -/
def statusWord (P : Platform) (w : Env) : Nat :=
  if P.BUILTIN_SDCARD.isSome then w.status else 0xFFFFFFFF

/-- `SDClass::mediaPresent()`. -/
def mediaPresent (P : Platform) (self : SDClass) (w : Env) : Outcome :=
  let em := initCounter P self w
  let cs := self.csPin_
  let cpp := self.cardPreviouslyPresent
  if w.card then
    if cpp = CPP_PRESENT then
      let s := statusWord P w
      let t0 : List Event := if P.BUILTIN_SDCARD.isSome then [Event.status] else []
      if s = 0xFFFFFFFF then
        ⟨w.readCID, ⟨cs, cpp, em⟩, t0 ++ [Event.readCID]⟩
      else if s = 0 then
        if P.BUILTIN_SDCARD = some cs then
          ⟨false, ⟨cs, CPP_CD_ACTIVE, em⟩, t0 ++ [Event.pinModePulldown P.SD_DAT3]⟩
        else
          ⟨false, ⟨cs, 0, em⟩, t0⟩
      else
        ⟨true, ⟨cs, cpp, em⟩, t0⟩
    else
      if P.BUILTIN_SDCARD = some cs then
        if cpp = CPP_CD_DETECTED then
          let ret := w.restart
          if ret then
            ⟨ret, ⟨cs, CPP_PRESENT, em⟩, [Event.restart]⟩
          else if elapsed (em.getD 0) w.millis ≥ MAX_CD_DETECTED_TEST then
            ⟨ret, ⟨cs, CPP_CD_ACTIVE, em⟩, [Event.restart, Event.pinModePulldown P.SD_DAT3]⟩
          else
            ⟨ret, ⟨cs, cpp, em⟩, [Event.restart]⟩
        else if cpp = CPP_CD_ACTIVE then
          if !w.dat3 then
            ⟨false, ⟨cs, cpp, em⟩, [Event.digitalReadFast P.SD_DAT3]⟩
          else
            let ret := w.restart
            ⟨ret, ⟨cs, if ret then CPP_PRESENT else CPP_CD_DETECTED, em⟩,
              [Event.digitalReadFast P.SD_DAT3, Event.restart]⟩
        else
          let ret := w.restart
          ⟨ret, ⟨cs, if ret then CPP_PRESENT else CPP_CD_DETECTED, em⟩, [Event.restart]⟩
      else
        let ret := w.restart
        ⟨ret, ⟨cs, if ret then CPP_PRESENT else cpp, em⟩, [Event.restart]⟩
  else
    ⟨false, ⟨cs, cpp, em⟩, []⟩

/-! ## Sequences of calls -/

/-- One call on the object, with the answers of the outside world. -/
inductive Call where
  /-- `begin(csPin)`, where `sdfs.begin` answers `mount` if it is called. -/
  | begin (csPin : Nat) (mount : Bool)
  /-- `mediaPresent()` in the environment `w`. -/
  | mediaPresent (w : Env)
  deriving DecidableEq, Repr

/-- The outcome of one call. -/
def step (P : Platform) (s : SDClass) : Call → Outcome
  | Call.begin csPin mount => begin P s csPin mount
  | Call.mediaPresent w => mediaPresent P s w

/-- The outcomes of a sequence of calls, one per call, each call starting in
the state the previous one left. -/
def run (P : Platform) : SDClass → List Call → List Outcome
  | _, [] => []
  | s, c :: cs => step P s c :: run P (step P s c).state cs

/-- The event is a call of `sdfs.begin` (a mount attempt). -/
def Event.isMount : Event → Bool
  | Event.beginBuiltin => true
  | Event.beginSpi _ => true
  | _ => false

/-- The event is a call of `sdfs.restart`. -/
def Event.isRestart : Event → Bool
  | Event.restart => true
  | _ => false

/-- The number of `sdfs.restart` calls made over a list of outcomes. -/
def restartCount (os : List Outcome) : Nat :=
  (os.map fun o => o.trace.countP Event.isRestart).sum

/-- The call is made on the general-purpose interface and no mount or restart
it attempts succeeds: a `begin` is given a pin other than `BUILTIN_SDCARD` and
its mount, attempted when the pin is a digital pin, fails; a `mediaPresent`
has a failing `sdfs.restart`. -/
def Call.failsOnSpi (P : Platform) : Call → Prop
  | Call.begin csPin mount =>
      P.BUILTIN_SDCARD ≠ some csPin ∧ (csPin < P.NUM_DIGITAL_PINS → mount = false)
  | Call.mediaPresent w => w.restart = false

instance (P : Platform) (c : Call) : Decidable (Call.failsOnSpi P c) := by
  cases c <;> unfold Call.failsOnSpi <;> infer_instance

/-- The state after a sequence of calls. -/
def finalState (P : Platform) : SDClass → List Call → SDClass
  | s, [] => s
  | s, c :: cs => finalState P (step P s c).state cs

/-- The call is one for which `begin` attempts a mount: every `mediaPresent`,
and a `begin` whose pin is `BUILTIN_SDCARD` or a digital pin. -/
def Call.validPin (P : Platform) : Call → Prop
  | Call.begin csPin _ => P.BUILTIN_SDCARD = some csPin ∨ csPin < P.NUM_DIGITAL_PINS
  | Call.mediaPresent _ => True

instance (P : Platform) (c : Call) : Decidable (Call.validPin P c) := by
  cases c <;> unfold Call.validPin <;> infer_instance

/-- The reading of `em_cd_detected` that line 159 compares with
`MAX_CD_DETECTED_TEST` in a call made in state `s` and environment `w`. -/
def counterReading (P : Platform) (s : SDClass) (w : Env) : Nat :=
  elapsed ((initCounter P s w).getD 0) w.millis

/-! ## `SDClass::format` (lines 80-106) -/

/-- Calls made by `format`, in program order. -/
inductive FormatEvent where
  /-- `malloc(512)`, line 86. -/
  | malloc
  /-- `exFatFormatter.format(card, buf, &pr)`, line 92. -/
  | exFatFormat
  /-- `fatFormatter.format(card, buf, &pr)`, line 98. -/
  | fatFormat
  /-- `free(buf)`, line 100. -/
  | free
  /-- `sdfs.restart()`, line 103. -/
  | restart
  deriving DecidableEq, Repr

/-- What the outside world answers during one call of `format`. -/
structure FormatEnv where
  /-- `sdfs.card()` is not the null pointer. -/
  card : Bool
  /-- The value of `card->sectorCount()`, a `uint32_t`. -/
  sectorCount : Nat
  /-- `malloc(512)` is not the null pointer. -/
  malloc : Bool
  /-- The value of `exFatFormatter.format(card, buf, &pr)`. -/
  exFat : Bool
  /-- The value of `fatFormatter.format(card, buf, &pr)`. -/
  fat : Bool
  deriving DecidableEq, Repr

/-- The result of `format`: the returned boolean and the calls made. -/
structure FormatOutcome where
  ret : Bool
  trace : List FormatEvent
  deriving DecidableEq, Repr

/-- `SDClass::format(type, progressChar, pr)`.  The arguments `type` and
`progressChar` are not used by the body and `pr` is only handed to the
formatter; the result of `sdfs.restart()` is discarded; no member is written. -/
def format (P : Platform) (w : FormatEnv) : FormatOutcome :=
  if !w.card then ⟨false, []⟩
  else
    let sectors := w.sectorCount
    if sectors ≤ 12288 then ⟨false, []⟩
    else if !w.malloc then ⟨false, [FormatEvent.malloc]⟩
    else
      let r : Bool × List FormatEvent :=
        if sectors > 67108864 then
          if P.arm then (w.exFat, [FormatEvent.exFatFormat]) else (false, [])
        else (w.fat, [FormatEvent.fatFormat])
      ⟨r.1, [FormatEvent.malloc] ++ r.2 ++ [FormatEvent.free] ++
        (if r.1 then [FormatEvent.restart] else [])⟩

/-! ## Helper lemmas -/

@[simp] theorem run_nil (P : Platform) (s : SDClass) : run P s [] = [] := rfl

@[simp] theorem run_cons (P : Platform) (s : SDClass) (c : Call) (cs : List Call) :
    run P s (c :: cs) = step P s c :: run P (step P s c).state cs := rfl

@[simp] theorem step_mediaPresent (P : Platform) (s : SDClass) (w : Env) :
    step P s (Call.mediaPresent w) = mediaPresent P s w := rfl

@[simp] theorem step_begin (P : Platform) (s : SDClass) (csPin : Nat) (mount : Bool) :
    step P s (Call.begin csPin mount) = begin P s csPin mount := rfl

/-- `mediaPresent` never writes `csPin_`. -/
theorem mediaPresent_csPin (P : Platform) (s : SDClass) (w : Env) :
    (mediaPresent P s w).state.csPin_ = s.csPin_ := by
  unfold mediaPresent
  simp only []
  split_ifs <;> rfl

/-! ## `begin` -/

/-- C1 (evaluation at the failing input): on a Teensy 4.1, `begin(BUILTIN_SDCARD)`
whose mount succeeds returns `true` and leaves `cardPreviouslyPresent` at `0`,
not at `CPP_PRESENT`, while `begin(10)` whose mount succeeds leaves it at
`CPP_PRESENT`. -/
theorem begin_builtin_mount_ok_not_present :
    (begin teensy41 ⟨255, 0, none⟩ 254 true).ret = true ∧
    (begin teensy41 ⟨255, 0, none⟩ 254 true).state.cardPreviouslyPresent = 0 ∧
    (begin teensy41 ⟨255, 0, none⟩ 254 true).state.cardPreviouslyPresent ≠ CPP_PRESENT ∧
    (begin teensy41 ⟨255, 0, none⟩ 10 true).state.cardPreviouslyPresent = CPP_PRESENT := by
  decide

/-- C2 (counterexample): on a Teensy 4.1, in state `CPP_PRESENT`, `begin(200)`
(200 is neither `BUILTIN_SDCARD` nor a digital pin) returns `false` and the
state afterwards is still `CPP_PRESENT`, not `0`. -/
theorem begin_invalid_pin_keeps_state :
    teensy41.BUILTIN_SDCARD ≠ some 200 ∧
    (begin teensy41 ⟨10, CPP_PRESENT, none⟩ 200 false).ret = false ∧
    (begin teensy41 ⟨10, CPP_PRESENT, none⟩ 200 false).state.cardPreviouslyPresent
      = CPP_PRESENT ∧
    (begin teensy41 ⟨10, CPP_PRESENT, none⟩ 200 false).state.cardPreviouslyPresent ≠ 0 := by
  decide

/-- C2 (amended): for every call of `begin` that returns `false`: on the
dedicated interface the state afterwards is `CPP_CD_ACTIVE` and the detect pin
has been configured as input with pull-down; for every other `csPin` that is a
digital pin the state afterwards is `0` whatever it was before; for every
other `csPin` that is not a digital pin no mount is attempted and the state is
what it was before the call. -/
theorem begin_false_state (P : Platform) (s : SDClass) (csPin : Nat) (mount : Bool)
    (h : (begin P s csPin mount).ret = false) :
    (P.BUILTIN_SDCARD = some csPin →
      (begin P s csPin mount).state.cardPreviouslyPresent = CPP_CD_ACTIVE ∧
      Event.pinModePulldown P.SD_DAT3 ∈ (begin P s csPin mount).trace) ∧
    (P.BUILTIN_SDCARD ≠ some csPin → csPin < P.NUM_DIGITAL_PINS →
      (begin P s csPin mount).state.cardPreviouslyPresent = 0) ∧
    (P.BUILTIN_SDCARD ≠ some csPin → ¬ csPin < P.NUM_DIGITAL_PINS →
      (begin P s csPin mount).state.cardPreviouslyPresent = s.cardPreviouslyPresent ∧
      (begin P s csPin mount).trace.countP Event.isMount = 0) := by
  refine ⟨fun hb => ?_, fun hb hn => ?_, fun hb hn => ?_⟩
  · cases mount
    · simp [begin, hb]
    · simp [begin, hb] at h
  · cases mount
    · simp [begin, hb, hn]
    · simp [begin, hb, hn] at h
  · cases hP : P.arm <;> simp [begin, hb, hn, hP, Event.isMount]

/-- Witness of `begin_false_state`: a failed mount on the dedicated interface of
a Teensy 4.1. -/
theorem begin_false_state_witness :
    (begin teensy41 ⟨255, 0, none⟩ 254 false).ret = false ∧
    (begin teensy41 ⟨255, 0, none⟩ 254 false).state.cardPreviouslyPresent = CPP_CD_ACTIVE ∧
    Event.pinModePulldown teensy41.SD_DAT3 ∈ (begin teensy41 ⟨255, 0, none⟩ 254 false).trace :=
  ⟨by decide, (begin_false_state teensy41 ⟨255, 0, none⟩ 254 false (by decide)).1 (by decide)⟩

/-- C3: for every `csPin` for which `begin` attempts a mount (`BUILTIN_SDCARD`
or a digital pin), `begin` returns the result of the `sdfs.begin` call and makes
exactly one such call. -/
theorem begin_returns_mount (P : Platform) (s : SDClass) (csPin : Nat) (mount : Bool)
    (h : P.BUILTIN_SDCARD = some csPin ∨ csPin < P.NUM_DIGITAL_PINS) :
    (begin P s csPin mount).ret = mount ∧
    (begin P s csPin mount).trace.countP Event.isMount = 1 := by
  by_cases hb : P.BUILTIN_SDCARD = some csPin
  · cases mount <;> cases hP : P.arm <;> simp [begin, hb, hP, Event.isMount]
  · have hn : csPin < P.NUM_DIGITAL_PINS := h.resolve_left hb
    cases mount <;> cases hP : P.arm <;> simp [begin, hb, hn, hP, Event.isMount]

/-- Witness of `begin_returns_mount`: `begin(10)` on a Teensy 4.1. -/
theorem begin_returns_mount_witness :
    (teensy41.BUILTIN_SDCARD = some 10 ∨ 10 < teensy41.NUM_DIGITAL_PINS) ∧
    (begin teensy41 ⟨255, 0, none⟩ 10 true).ret = true ∧
    (begin teensy41 ⟨255, 0, none⟩ 10 true).trace.countP Event.isMount = 1 :=
  ⟨by decide, begin_returns_mount teensy41 ⟨255, 0, none⟩ 10 true (by decide)⟩

/-! ## `mediaPresent`, one call -/

/-- C4: in every state and on every interface, if `sdfs.card()` is null,
`mediaPresent` returns `false`, leaves `cardPreviouslyPresent` and `csPin_`
unchanged and calls nothing (no status query, CID read, pin read or restart). -/
theorem mediaPresent_no_card (P : Platform) (s : SDClass) (w : Env)
    (hc : w.card = false) :
    (mediaPresent P s w).ret = false ∧
    (mediaPresent P s w).state.cardPreviouslyPresent = s.cardPreviouslyPresent ∧
    (mediaPresent P s w).state.csPin_ = s.csPin_ ∧
    (mediaPresent P s w).trace = [] := by
  simp [mediaPresent, hc]

/-- Witness of `mediaPresent_no_card`: state `CPP_CD_ACTIVE` on the dedicated
interface of a Teensy 4.1, no card handle. -/
theorem mediaPresent_no_card_witness :
    (mediaPresent teensy41 ⟨254, CPP_CD_ACTIVE, none⟩ ⟨false, 7, true, true, true, 100⟩).ret
      = false ∧
    (mediaPresent teensy41 ⟨254, CPP_CD_ACTIVE, none⟩
      ⟨false, 7, true, true, true, 100⟩).state.cardPreviouslyPresent = CPP_CD_ACTIVE ∧
    (mediaPresent teensy41 ⟨254, CPP_CD_ACTIVE, none⟩
      ⟨false, 7, true, true, true, 100⟩).state.csPin_ = 254 ∧
    (mediaPresent teensy41 ⟨254, CPP_CD_ACTIVE, none⟩
      ⟨false, 7, true, true, true, 100⟩).trace = [] :=
  mediaPresent_no_card teensy41 ⟨254, CPP_CD_ACTIVE, none⟩
    ⟨false, 7, true, true, true, 100⟩ rfl

/-- C5: with a card handle, state `CPP_PRESENT` and status word `0`,
`mediaPresent` returns `false` and the state afterwards is not `CPP_PRESENT`:
it is `CPP_CD_ACTIVE` when `csPin_` is `BUILTIN_SDCARD` and `0` otherwise. -/
theorem mediaPresent_status_zero (P : Platform) (s : SDClass) (w : Env)
    (hc : w.card = true) (hp : s.cardPreviouslyPresent = CPP_PRESENT)
    (hs : statusWord P w = 0) :
    (mediaPresent P s w).ret = false ∧
    (mediaPresent P s w).state.cardPreviouslyPresent ≠ CPP_PRESENT ∧
    (P.BUILTIN_SDCARD = some s.csPin_ →
      (mediaPresent P s w).state.cardPreviouslyPresent = CPP_CD_ACTIVE) ∧
    (P.BUILTIN_SDCARD ≠ some s.csPin_ →
      (mediaPresent P s w).state.cardPreviouslyPresent = 0) := by
  by_cases hb : P.BUILTIN_SDCARD = some s.csPin_
  · simp [mediaPresent, hc, hp, hs, hb, CPP_PRESENT, CPP_CD_ACTIVE]
  · simp [mediaPresent, hc, hp, hs, hb, CPP_PRESENT]

/-- Witness of `mediaPresent_status_zero`: Teensy 4.1, dedicated interface,
state `CPP_PRESENT`, status `0`. -/
theorem mediaPresent_status_zero_witness :
    statusWord teensy41 ⟨true, 0, true, true, true, 100⟩ = 0 ∧
    (mediaPresent teensy41 ⟨254, CPP_PRESENT, none⟩ ⟨true, 0, true, true, true, 100⟩).ret
      = false ∧
    (mediaPresent teensy41 ⟨254, CPP_PRESENT, none⟩
      ⟨true, 0, true, true, true, 100⟩).state.cardPreviouslyPresent = CPP_CD_ACTIVE :=
  ⟨by decide,
   (mediaPresent_status_zero teensy41 ⟨254, CPP_PRESENT, none⟩
      ⟨true, 0, true, true, true, 100⟩ rfl rfl (by decide)).1,
   (mediaPresent_status_zero teensy41 ⟨254, CPP_PRESENT, none⟩
      ⟨true, 0, true, true, true, 100⟩ rfl rfl (by decide)).2.2.1 (by decide)⟩

/-- One call in state `CPP_PRESENT` with the status word `0xFFFFFFFF`: the
answer is the CID read result and the state stays `CPP_PRESENT`. -/
theorem mediaPresent_sentinel_step (P : Platform) (s : SDClass) (w : Env)
    (hc : w.card = true) (hp : s.cardPreviouslyPresent = CPP_PRESENT)
    (hs : statusWord P w = 0xFFFFFFFF) :
    (mediaPresent P s w).ret = w.readCID ∧
    (mediaPresent P s w).state.cardPreviouslyPresent = CPP_PRESENT := by
  simp [mediaPresent, hc, hp, hs]

/-- C7: with a card handle, state `CPP_PRESENT` and a status word that is
neither `0` nor `0xFFFFFFFF`, `mediaPresent` returns `true` and the state is
unchanged (still `CPP_PRESENT`). -/
theorem mediaPresent_status_other (P : Platform) (s : SDClass) (w : Env)
    (hc : w.card = true) (hp : s.cardPreviouslyPresent = CPP_PRESENT)
    (h0 : statusWord P w ≠ 0) (hF : statusWord P w ≠ 0xFFFFFFFF) :
    (mediaPresent P s w).ret = true ∧
    (mediaPresent P s w).state.cardPreviouslyPresent = CPP_PRESENT ∧
    (mediaPresent P s w).state.cardPreviouslyPresent = s.cardPreviouslyPresent ∧
    (mediaPresent P s w).state.csPin_ = s.csPin_ := by
  simp [mediaPresent, hc, hp, h0, hF]

/-- Witness of `mediaPresent_status_other`: Teensy 4.1, status `0x900`
(transfer state, ready for data). -/
theorem mediaPresent_status_other_witness :
    statusWord teensy41 ⟨true, 0x900, false, false, false, 100⟩ ≠ 0 ∧
    statusWord teensy41 ⟨true, 0x900, false, false, false, 100⟩ ≠ 0xFFFFFFFF ∧
    (mediaPresent teensy41 ⟨254, CPP_PRESENT, none⟩
      ⟨true, 0x900, false, false, false, 100⟩).ret = true ∧
    (mediaPresent teensy41 ⟨254, CPP_PRESENT, none⟩
      ⟨true, 0x900, false, false, false, 100⟩).state.cardPreviouslyPresent = CPP_PRESENT :=
  ⟨by decide, by decide,
   (mediaPresent_status_other teensy41 ⟨254, CPP_PRESENT, none⟩
      ⟨true, 0x900, false, false, false, 100⟩ rfl rfl (by decide) (by decide)).1,
   (mediaPresent_status_other teensy41 ⟨254, CPP_PRESENT, none⟩
      ⟨true, 0x900, false, false, false, 100⟩ rfl rfl (by decide) (by decide)).2.1⟩

/-- C8: with a card handle, a state other than `CPP_PRESENT` and `csPin_` not
the dedicated interface, `mediaPresent` makes exactly one external call, a
`sdfs.restart`, returns its result, and the state becomes `CPP_PRESENT` when
the restart succeeds and is left unchanged when it fails. -/
theorem mediaPresent_spi_restart (P : Platform) (s : SDClass) (w : Env)
    (hc : w.card = true) (hp : s.cardPreviouslyPresent ≠ CPP_PRESENT)
    (hb : P.BUILTIN_SDCARD ≠ some s.csPin_) :
    (mediaPresent P s w).trace = [Event.restart] ∧
    (mediaPresent P s w).trace.countP Event.isRestart = 1 ∧
    (mediaPresent P s w).ret = w.restart ∧
    (w.restart = true → (mediaPresent P s w).state.cardPreviouslyPresent = CPP_PRESENT) ∧
    (w.restart = false →
      (mediaPresent P s w).state.cardPreviouslyPresent = s.cardPreviouslyPresent) := by
  cases hr : w.restart <;> simp [mediaPresent, hc, hp, hb, hr, Event.isRestart]

/-- Witness of `mediaPresent_spi_restart`: Teensy 4.1, `csPin_ = 10`, state `0`,
restart succeeds. -/
theorem mediaPresent_spi_restart_witness :
    (mediaPresent teensy41 ⟨10, 0, none⟩ ⟨true, 0, false, true, false, 100⟩).trace
      = [Event.restart] ∧
    (mediaPresent teensy41 ⟨10, 0, none⟩ ⟨true, 0, false, true, false, 100⟩).ret = true ∧
    (mediaPresent teensy41 ⟨10, 0, none⟩
      ⟨true, 0, false, true, false, 100⟩).state.cardPreviouslyPresent = CPP_PRESENT :=
  ⟨(mediaPresent_spi_restart teensy41 ⟨10, 0, none⟩ ⟨true, 0, false, true, false, 100⟩
      rfl (by decide) (by decide)).1,
   (mediaPresent_spi_restart teensy41 ⟨10, 0, none⟩ ⟨true, 0, false, true, false, 100⟩
      rfl (by decide) (by decide)).2.2.1,
   (mediaPresent_spi_restart teensy41 ⟨10, 0, none⟩ ⟨true, 0, false, true, false, 100⟩
      rfl (by decide) (by decide)).2.2.2.1 rfl⟩

/-! ## `mediaPresent`, repeated calls -/

/-- Repeated calls in state `CPP_PRESENT`, each with a card handle and the
status word `0xFFFFFFFF`: the answers are the CID read results, in order, and
every call leaves the state `CPP_PRESENT`. -/
theorem run_sentinel (P : Platform) (ws : List Env) :
    ∀ s : SDClass, s.cardPreviouslyPresent = CPP_PRESENT →
      (∀ w ∈ ws, w.card = true ∧ statusWord P w = 0xFFFFFFFF) →
      (run P s (ws.map Call.mediaPresent)).map Outcome.ret = ws.map Env.readCID ∧
      ∀ o ∈ run P s (ws.map Call.mediaPresent),
        o.state.cardPreviouslyPresent = CPP_PRESENT := by
  induction ws with
  | nil => intro s _ _; simp
  | cons w ws ih =>
    intro s hp hw
    have hw0 := hw w (List.mem_cons_self w ws)
    have h1 := mediaPresent_sentinel_step P s w hw0.1 hp hw0.2
    have h2 := ih (mediaPresent P s w).state h1.2
      (fun v hv => hw v (List.mem_cons_of_mem w hv))
    refine ⟨?_, ?_⟩
    · simp [h1.1, h2.1]
    · intro o ho
      simp only [List.map_cons, run_cons, step_mediaPresent, List.mem_cons] at ho
      rcases ho with rfl | ho
      · exact h1.2
      · exact h2.2 o ho

/-- C6: in state `CPP_PRESENT`, a `mediaPresent` call made with a card handle
and the status word `0xFFFFFFFF` returns exactly the result of `readCID` and
leaves the state `CPP_PRESENT`; over any sequence of such calls the answers are
the CID read results call by call and the state is `CPP_PRESENT` after every
call. -/
theorem mediaPresent_sentinel_tracks_cid (P : Platform) (s : SDClass)
    (hp : s.cardPreviouslyPresent = CPP_PRESENT) :
    (∀ w : Env, w.card = true → statusWord P w = 0xFFFFFFFF →
      (mediaPresent P s w).ret = w.readCID ∧
      (mediaPresent P s w).state.cardPreviouslyPresent = CPP_PRESENT) ∧
    (∀ ws : List Env, (∀ w ∈ ws, w.card = true ∧ statusWord P w = 0xFFFFFFFF) →
      (run P s (ws.map Call.mediaPresent)).map Outcome.ret = ws.map Env.readCID ∧
      ∀ o ∈ run P s (ws.map Call.mediaPresent),
        o.state.cardPreviouslyPresent = CPP_PRESENT) :=
  ⟨fun w hc hs => mediaPresent_sentinel_step P s w hc hp hs,
   fun ws hw => run_sentinel P ws s hp hw⟩

/-- Witness of `mediaPresent_sentinel_tracks_cid`: on an SPI-only board the CID
read fails, then succeeds; the answers are `false`, `true`. -/
theorem mediaPresent_sentinel_tracks_cid_witness :
    (run spiOnly ⟨10, CPP_PRESENT, none⟩
      ([⟨true, 0, false, false, false, 100⟩, ⟨true, 0, true, false, false, 200⟩].map
        Call.mediaPresent)).map Outcome.ret = [false, true] ∧
    ∀ o ∈ run spiOnly ⟨10, CPP_PRESENT, none⟩
      ([⟨true, 0, false, false, false, 100⟩, ⟨true, 0, true, false, false, 200⟩].map
        Call.mediaPresent), o.state.cardPreviouslyPresent = CPP_PRESENT :=
  (mediaPresent_sentinel_tracks_cid spiOnly ⟨10, CPP_PRESENT, none⟩ rfl).2
    [⟨true, 0, false, false, false, 100⟩, ⟨true, 0, true, false, false, 200⟩]
    (by decide)

/-- The invariant of the general-purpose interface when nothing succeeds:
the state is `0` and `csPin_` is not `BUILTIN_SDCARD`; every call that fails on
that interface returns `false` and keeps the invariant. -/
theorem step_failsOnSpi (P : Platform) (s : SDClass) (c : Call)
    (h0 : s.cardPreviouslyPresent = 0) (hb : P.BUILTIN_SDCARD ≠ some s.csPin_)
    (hc : Call.failsOnSpi P c) :
    (step P s c).ret = false ∧ (step P s c).state.cardPreviouslyPresent = 0 ∧
    P.BUILTIN_SDCARD ≠ some (step P s c).state.csPin_ := by
  cases c with
  | begin csPin mount =>
    obtain ⟨hcs, hm⟩ := hc
    by_cases hn : csPin < P.NUM_DIGITAL_PINS
    · simp [begin, hcs, hn, hm hn]
    · simp [begin, hcs, hn, h0]
  | mediaPresent w =>
    have hr : w.restart = false := hc
    cases hcard : w.card
    · simp [mediaPresent, hcard, h0, hb]
    · simp [mediaPresent, hcard, h0, hb, hr, CPP_PRESENT]

/-- The invariant of `step_failsOnSpi` along a sequence of calls. -/
theorem run_failsOnSpi (P : Platform) (cs : List Call) :
    ∀ s : SDClass, s.cardPreviouslyPresent = 0 → P.BUILTIN_SDCARD ≠ some s.csPin_ →
      (∀ c ∈ cs, Call.failsOnSpi P c) →
      ∀ o ∈ run P s cs, o.ret = false ∧ o.state.cardPreviouslyPresent = 0 := by
  induction cs with
  | nil => intro s _ _ _ o ho; simp at ho
  | cons c cs ih =>
    intro s h0 hb hc o ho
    have h1 := step_failsOnSpi P s c h0 hb (hc c (List.mem_cons_self c cs))
    simp only [run_cons, List.mem_cons] at ho
    rcases ho with rfl | ho
    · exact ⟨h1.1, h1.2.1⟩
    · exact ih (step P s c).state h1.2.1 h1.2.2
        (fun d hd => hc d (List.mem_cons_of_mem c hd)) o ho

/-- C9: on the general-purpose interface, starting from state `0`, for every
finite sequence of `begin` and `mediaPresent` calls in which no mount and no
restart succeeds, every call (so every `mediaPresent` call) returns `false` and
the state is not `CPP_PRESENT` after any call. -/
theorem spi_never_present (P : Platform) (s : SDClass) (cs : List Call)
    (h0 : s.cardPreviouslyPresent = 0) (hb : P.BUILTIN_SDCARD ≠ some s.csPin_)
    (hc : ∀ c ∈ cs, Call.failsOnSpi P c) :
    ∀ o ∈ run P s cs, o.ret = false ∧ o.state.cardPreviouslyPresent ≠ CPP_PRESENT := by
  intro o ho
  have h := run_failsOnSpi P cs s h0 hb hc o ho
  refine ⟨h.1, ?_⟩
  rw [h.2]
  decide

/-- Witness of `spi_never_present`: Teensy 4.1; `begin(10)` fails, two checks
with a stale card handle fail to restart, `begin(200)` is rejected, one more
check fails. -/
theorem spi_never_present_witness :
    teensy41.BUILTIN_SDCARD ≠ some 255 ∧
    (run teensy41 ⟨255, 0, none⟩
      [Call.begin 10 false, Call.mediaPresent ⟨true, 0, true, false, true, 100⟩,
       Call.mediaPresent ⟨true, 0x900, true, false, true, 6000⟩, Call.begin 200 true,
       Call.mediaPresent ⟨true, 0, true, false, true, 7000⟩]).all
      (fun o => decide (o.ret = false ∧ o.state.cardPreviouslyPresent ≠ CPP_PRESENT)) = true :=
  ⟨by decide,
   List.all_eq_true.mpr fun o ho => decide_eq_true
    (spi_never_present teensy41 ⟨255, 0, none⟩
      [Call.begin 10 false, Call.mediaPresent ⟨true, 0, true, false, true, 100⟩,
       Call.mediaPresent ⟨true, 0x900, true, false, true, 6000⟩, Call.begin 200 true,
       Call.mediaPresent ⟨true, 0, true, false, true, 7000⟩]
      rfl (by decide) (by decide) o ho)⟩

/-- One call on the dedicated interface in state `CPP_CD_ACTIVE` with the
detect pin low: `false`, no restart, same state and interface. -/
theorem mediaPresent_cd_active_low_step (P : Platform) (s : SDClass) (w : Env)
    (hb : P.BUILTIN_SDCARD = some s.csPin_)
    (hp : s.cardPreviouslyPresent = CPP_CD_ACTIVE) (hd : w.dat3 = false) :
    (mediaPresent P s w).ret = false ∧
    (mediaPresent P s w).trace.countP Event.isRestart = 0 ∧
    (mediaPresent P s w).state.cardPreviouslyPresent = CPP_CD_ACTIVE ∧
    (mediaPresent P s w).state.csPin_ = s.csPin_ := by
  cases hcard : w.card
  · simp [mediaPresent, hcard, hp]
  · simp [mediaPresent, hcard, hp, hb, hd, CPP_PRESENT, CPP_CD_ACTIVE, CPP_CD_DETECTED,
      Event.isRestart]

/-- Repeated calls under the conditions of `mediaPresent_cd_active_low_step`. -/
theorem run_cd_active_low (P : Platform) (ws : List Env) :
    ∀ s : SDClass, P.BUILTIN_SDCARD = some s.csPin_ →
      s.cardPreviouslyPresent = CPP_CD_ACTIVE → (∀ w ∈ ws, w.dat3 = false) →
      restartCount (run P s (ws.map Call.mediaPresent)) = 0 ∧
      ∀ o ∈ run P s (ws.map Call.mediaPresent),
        o.ret = false ∧ o.state.cardPreviouslyPresent = CPP_CD_ACTIVE := by
  induction ws with
  | nil => intro s _ _ _; simp [restartCount]
  | cons w ws ih =>
    intro s hb hp hw
    have h1 := mediaPresent_cd_active_low_step P s w hb hp (hw w (List.mem_cons_self w ws))
    have h2 := ih (mediaPresent P s w).state (by rw [h1.2.2.2]; exact hb) h1.2.2.1
      (fun v hv => hw v (List.mem_cons_of_mem w hv))
    refine ⟨?_, ?_⟩
    · have h3 := h2.1
      simp only [restartCount] at h3 ⊢
      simp [h1.2.1, h3]
    · intro o ho
      simp only [List.map_cons, run_cons, step_mediaPresent, List.mem_cons] at ho
      rcases ho with rfl | ho
      · exact ⟨h1.1, h1.2.2.1⟩
      · exact h2.2 o ho

/-- C10: on the dedicated interface in state `CPP_CD_ACTIVE`, a `mediaPresent`
call made while the detect pin reads low returns `false`, calls no restart and
leaves the state `CPP_CD_ACTIVE`; over any number of repeated calls under these
conditions the number of restart calls is zero. -/
theorem mediaPresent_cd_active_pin_low (P : Platform) (s : SDClass)
    (hb : P.BUILTIN_SDCARD = some s.csPin_)
    (hp : s.cardPreviouslyPresent = CPP_CD_ACTIVE) :
    (∀ w : Env, w.dat3 = false →
      (mediaPresent P s w).ret = false ∧
      Event.restart ∉ (mediaPresent P s w).trace ∧
      (mediaPresent P s w).state.cardPreviouslyPresent = CPP_CD_ACTIVE) ∧
    (∀ ws : List Env, (∀ w ∈ ws, w.dat3 = false) →
      restartCount (run P s (ws.map Call.mediaPresent)) = 0 ∧
      ∀ o ∈ run P s (ws.map Call.mediaPresent),
        o.ret = false ∧ o.state.cardPreviouslyPresent = CPP_CD_ACTIVE) := by
  refine ⟨fun w hd => ?_, fun ws hw => run_cd_active_low P ws s hb hp hw⟩
  have h := mediaPresent_cd_active_low_step P s w hb hp hd
  refine ⟨h.1, ?_, h.2.2.1⟩
  intro hmem
  have hpos : 0 < (mediaPresent P s w).trace.countP Event.isRestart :=
    List.countP_pos_iff.mpr ⟨Event.restart, hmem, rfl⟩
  omega

/-- Witness of `mediaPresent_cd_active_pin_low`: Teensy 4.1 after a failed
`begin(BUILTIN_SDCARD)`; three checks with the detect pin low, 10 s apart. -/
theorem mediaPresent_cd_active_pin_low_witness :
    restartCount (run teensy41 ⟨254, CPP_CD_ACTIVE, none⟩
      ([⟨true, 0, true, true, false, 100⟩, ⟨true, 0, true, true, false, 10100⟩,
        ⟨false, 0, true, true, false, 20100⟩].map Call.mediaPresent)) = 0 ∧
    ∀ o ∈ run teensy41 ⟨254, CPP_CD_ACTIVE, none⟩
      ([⟨true, 0, true, true, false, 100⟩, ⟨true, 0, true, true, false, 10100⟩,
        ⟨false, 0, true, true, false, 20100⟩].map Call.mediaPresent),
      o.ret = false ∧ o.state.cardPreviouslyPresent = CPP_CD_ACTIVE :=
  (mediaPresent_cd_active_pin_low teensy41 ⟨254, CPP_CD_ACTIVE, none⟩ rfl rfl).2
    [⟨true, 0, true, true, false, 100⟩, ⟨true, 0, true, true, false, 10100⟩,
     ⟨false, 0, true, true, false, 20100⟩]
    (by decide)

/-! ## `mediaPresent` on the dedicated interface -/

/-- C11: on the dedicated interface, a `mediaPresent` call made with a card
handle in state `CPP_CD_ACTIVE` while the detect pin reads high calls
`sdfs.restart` once, returns its result, and the state becomes `CPP_PRESENT`
on success or `CPP_CD_DETECTED` on failure.  In particular
`begin(BUILTIN_SDCARD)` with a failed mount followed by such a call whose
restart succeeds ends in `CPP_PRESENT` with the call returning `true`. -/
theorem mediaPresent_cd_active_pin_high (P : Platform) (b : Nat)
    (hB : P.BUILTIN_SDCARD = some b) :
    (∀ (s : SDClass) (w : Env), s.csPin_ = b → s.cardPreviouslyPresent = CPP_CD_ACTIVE →
      w.card = true → w.dat3 = true →
      (mediaPresent P s w).trace.countP Event.isRestart = 1 ∧
      (mediaPresent P s w).ret = w.restart ∧
      (w.restart = true → (mediaPresent P s w).state.cardPreviouslyPresent = CPP_PRESENT) ∧
      (w.restart = false →
        (mediaPresent P s w).state.cardPreviouslyPresent = CPP_CD_DETECTED)) ∧
    (∀ (s0 : SDClass) (w : Env), w.card = true → w.dat3 = true → w.restart = true →
      (begin P s0 b false).ret = false ∧
      (begin P s0 b false).state.cardPreviouslyPresent = CPP_CD_ACTIVE ∧
      (mediaPresent P (begin P s0 b false).state w).ret = true ∧
      (mediaPresent P (begin P s0 b false).state w).state.cardPreviouslyPresent
        = CPP_PRESENT) := by
  refine ⟨fun s w hcs hp hc hd => ?_, fun s0 w hc hd hr => ?_⟩
  · subst hcs
    cases hr : w.restart <;>
      simp [mediaPresent, hc, hp, hB, hd, hr, CPP_PRESENT, CPP_CD_ACTIVE, CPP_CD_DETECTED,
        Event.isRestart]
  · simp [begin, mediaPresent, hB, hc, hd, hr, CPP_PRESENT, CPP_CD_ACTIVE, CPP_CD_DETECTED]

/-- Witness of `mediaPresent_cd_active_pin_high`: Teensy 4.1, failed
`begin(254)`, then a check with the pin high and a successful restart. -/
theorem mediaPresent_cd_active_pin_high_witness :
    teensy41.BUILTIN_SDCARD = some 254 ∧
    (begin teensy41 ⟨255, 0, none⟩ 254 false).ret = false ∧
    (begin teensy41 ⟨255, 0, none⟩ 254 false).state.cardPreviouslyPresent = CPP_CD_ACTIVE ∧
    (mediaPresent teensy41 (begin teensy41 ⟨255, 0, none⟩ 254 false).state
      ⟨true, 0, false, true, true, 100⟩).ret = true ∧
    (mediaPresent teensy41 (begin teensy41 ⟨255, 0, none⟩ 254 false).state
      ⟨true, 0, false, true, true, 100⟩).state.cardPreviouslyPresent = CPP_PRESENT :=
  ⟨rfl, (mediaPresent_cd_active_pin_high teensy41 254 rfl).2 ⟨255, 0, none⟩
    ⟨true, 0, false, true, true, 100⟩ rfl rfl rfl⟩

/-- C12 (counterexample): Teensy 4.1, state `CPP_CD_DETECTED`, counter started
at 1000 ms, check at 6000 ms with a failing restart: the counter reads exactly
5000, which is not strictly greater than 5000, and the state becomes
`CPP_CD_ACTIVE`. -/
theorem mediaPresent_cd_detected_at_bound :
    counterReading teensy41 ⟨254, CPP_CD_DETECTED, some 1000⟩
      ⟨true, 0, false, false, false, 6000⟩ = 5000 ∧
    ¬ (5000 < counterReading teensy41 ⟨254, CPP_CD_DETECTED, some 1000⟩
      ⟨true, 0, false, false, false, 6000⟩) ∧
    (mediaPresent teensy41 ⟨254, CPP_CD_DETECTED, some 1000⟩
      ⟨true, 0, false, false, false, 6000⟩).ret = false ∧
    (mediaPresent teensy41 ⟨254, CPP_CD_DETECTED, some 1000⟩
      ⟨true, 0, false, false, false, 6000⟩).state.cardPreviouslyPresent = CPP_CD_ACTIVE := by
  decide

/-- C12 (amended): on the dedicated interface, a `mediaPresent` call made with
a card handle in state `CPP_CD_DETECTED` calls `sdfs.restart` once and returns
its result; on success the state becomes `CPP_PRESENT`; on failure the state
becomes `CPP_CD_ACTIVE` exactly when the elapsed-time counter reads 5000 ms or
more, and otherwise stays `CPP_CD_DETECTED`. -/
theorem mediaPresent_cd_detected (P : Platform) (s : SDClass) (w : Env)
    (hb : P.BUILTIN_SDCARD = some s.csPin_) (hc : w.card = true)
    (hp : s.cardPreviouslyPresent = CPP_CD_DETECTED) :
    (mediaPresent P s w).trace.countP Event.isRestart = 1 ∧
    (mediaPresent P s w).ret = w.restart ∧
    (w.restart = true → (mediaPresent P s w).state.cardPreviouslyPresent = CPP_PRESENT) ∧
    (w.restart = false →
      ((mediaPresent P s w).state.cardPreviouslyPresent = CPP_CD_ACTIVE ↔
        MAX_CD_DETECTED_TEST ≤ counterReading P s w) ∧
      (counterReading P s w < MAX_CD_DETECTED_TEST →
        (mediaPresent P s w).state.cardPreviouslyPresent = CPP_CD_DETECTED)) := by
  cases hr : w.restart
  · by_cases he : MAX_CD_DETECTED_TEST ≤ counterReading P s w
    · have he2 : ¬ counterReading P s w < MAX_CD_DETECTED_TEST := by omega
      have he3 := he
      unfold counterReading at he3
      simp [mediaPresent, hc, hp, hb, hr, he, he2, he3, CPP_PRESENT, CPP_CD_DETECTED,
        Event.isRestart]
    · have he2 : counterReading P s w < MAX_CD_DETECTED_TEST := by omega
      have he3 := he
      unfold counterReading at he3
      simp [mediaPresent, hc, hp, hb, hr, he, he3, CPP_PRESENT, CPP_CD_DETECTED,
        CPP_CD_ACTIVE, Event.isRestart]
  · simp [mediaPresent, hc, hp, hb, hr, CPP_PRESENT, CPP_CD_DETECTED, Event.isRestart]

/-- Witness of `mediaPresent_cd_detected`: Teensy 4.1, counter started at
1000 ms, failing restart at 3000 ms (reading 2000): the state stays
`CPP_CD_DETECTED`. -/
theorem mediaPresent_cd_detected_witness :
    (mediaPresent teensy41 ⟨254, CPP_CD_DETECTED, some 1000⟩
      ⟨true, 0, false, false, false, 3000⟩).ret = false ∧
    (mediaPresent teensy41 ⟨254, CPP_CD_DETECTED, some 1000⟩
      ⟨true, 0, false, false, false, 3000⟩).state.cardPreviouslyPresent = CPP_CD_DETECTED :=
  ⟨(mediaPresent_cd_detected teensy41 ⟨254, CPP_CD_DETECTED, some 1000⟩
      ⟨true, 0, false, false, false, 3000⟩ rfl rfl rfl).2.1,
   ((mediaPresent_cd_detected teensy41 ⟨254, CPP_CD_DETECTED, some 1000⟩
      ⟨true, 0, false, false, false, 3000⟩ rfl rfl rfl).2.2.2 rfl).2 (by decide)⟩

/-! ## The detection window -/

@[simp] theorem finalState_nil (P : Platform) (s : SDClass) : finalState P s [] = s := rfl

@[simp] theorem finalState_cons (P : Platform) (s : SDClass) (c : Call) (cs : List Call) :
    finalState P s (c :: cs) = finalState P (step P s c).state cs := rfl

/-- Once the counter `em_cd_detected` exists, no call of `mediaPresent` writes
it: whatever branch is taken, its start time afterwards is the one before. -/
theorem mediaPresent_counter_kept (P : Platform) (s : SDClass) (w : Env) (m : Nat)
    (hem : s.em_cd_detected = some m) :
    (mediaPresent P s w).state.em_cd_detected = some m := by
  have hi : initCounter P s w = some m := by
    unfold initCounter
    rw [hem]
    split_ifs <;> rfl
  unfold mediaPresent
  simp only [hi]
  split_ifs <;> rfl

/-- No call of `begin` writes the counter `em_cd_detected`. -/
theorem begin_counter_kept (P : Platform) (s : SDClass) (csPin : Nat) (mount : Bool) :
    (begin P s csPin mount).state.em_cd_detected = s.em_cd_detected := by
  unfold begin
  simp only []
  split_ifs <;> rfl

/-- C13 (evaluation at the failing input): Teensy 4.1, from the initial state.
`begin(254)` fails to mount; a first check at 100 ms finds the pin low (this
call constructs the counter, start time 100); the check at 60000 ms finds the
pin high, its restart fails and the state enters `CPP_CD_DETECTED`; the check
made 1 ms later, at 60001 ms, with a failing restart reads 59901 on the counter
and moves the state back to `CPP_CD_ACTIVE`: the counter still holds the start
time 100, the call that entered `CPP_CD_DETECTED` did not set it. -/
theorem detect_window_not_from_entry :
    (run teensy41 ⟨255, 0, none⟩
      [Call.begin 254 false,
       Call.mediaPresent ⟨true, 0, false, false, false, 100⟩,
       Call.mediaPresent ⟨true, 0, false, false, true, 60000⟩,
       Call.mediaPresent ⟨true, 0, false, false, true, 60001⟩]).map
      (fun o => (o.ret, o.state.cardPreviouslyPresent, o.state.em_cd_detected))
      = [(false, CPP_CD_ACTIVE, none), (false, CPP_CD_ACTIVE, some 100),
         (false, CPP_CD_DETECTED, some 100), (false, CPP_CD_ACTIVE, some 100)] ∧
    counterReading teensy41
      (finalState teensy41 ⟨255, 0, none⟩
        [Call.begin 254 false,
         Call.mediaPresent ⟨true, 0, false, false, false, 100⟩,
         Call.mediaPresent ⟨true, 0, false, false, true, 60000⟩])
      ⟨true, 0, false, false, true, 60001⟩ = 59901 ∧
    60001 - 60000 ≤ MAX_CD_DETECTED_TEST := by
  decide

/-! ## Invariants -/

/-- A call with a mountable pin keeps the invariant "the detect states occur
only on the dedicated interface". -/
theorem step_detect_inv (P : Platform) (s : SDClass) (c : Call)
    (hi : s.cardPreviouslyPresent = CPP_CD_ACTIVE ∨ s.cardPreviouslyPresent = CPP_CD_DETECTED →
      P.BUILTIN_SDCARD = some s.csPin_)
    (hv : Call.validPin P c) :
    (step P s c).state.cardPreviouslyPresent = CPP_CD_ACTIVE ∨
      (step P s c).state.cardPreviouslyPresent = CPP_CD_DETECTED →
    P.BUILTIN_SDCARD = some (step P s c).state.csPin_ := by
  cases c with
  | begin csPin mount =>
    by_cases hb : P.BUILTIN_SDCARD = some csPin
    · intro _
      cases mount <;> simp [begin, hb]
    · have hn : csPin < P.NUM_DIGITAL_PINS := hv.resolve_left hb
      cases mount <;> simp [begin, hb, hn, CPP_PRESENT, CPP_CD_ACTIVE, CPP_CD_DETECTED]
  | mediaPresent w =>
    rw [step_mediaPresent, mediaPresent_csPin]
    by_cases hb : P.BUILTIN_SDCARD = some s.csPin_
    · exact fun _ => hb
    · have hA : s.cardPreviouslyPresent ≠ CPP_CD_ACTIVE := fun h => hb (hi (Or.inl h))
      have hD : s.cardPreviouslyPresent ≠ CPP_CD_DETECTED := fun h => hb (hi (Or.inr h))
      intro h
      exfalso
      unfold mediaPresent at h
      simp only [hb, if_false] at h
      split_ifs at h <;>
        simp_all [CPP_PRESENT, CPP_CD_ACTIVE, CPP_CD_DETECTED]

/-- The invariant of `step_detect_inv` along a sequence of calls. -/
theorem run_detect_inv (P : Platform) (cs : List Call) :
    ∀ s : SDClass,
      (s.cardPreviouslyPresent = CPP_CD_ACTIVE ∨ s.cardPreviouslyPresent = CPP_CD_DETECTED →
        P.BUILTIN_SDCARD = some s.csPin_) →
      (∀ c ∈ cs, Call.validPin P c) →
      ∀ o ∈ run P s cs,
        o.state.cardPreviouslyPresent = CPP_CD_ACTIVE ∨
          o.state.cardPreviouslyPresent = CPP_CD_DETECTED →
        P.BUILTIN_SDCARD = some o.state.csPin_ := by
  induction cs with
  | nil => intro s _ _ o ho; simp at ho
  | cons c cs ih =>
    intro s hi hv o ho
    have h1 := step_detect_inv P s c hi (hv c (List.mem_cons_self c cs))
    simp only [run_cons, List.mem_cons] at ho
    rcases ho with rfl | ho
    · exact h1
    · exact ih (step P s c).state h1 (fun d hd => hv d (List.mem_cons_of_mem c hd)) o ho

/-- C14 (counterexample): Teensy 4.1, from state `0`: `begin(254)` with a
failed mount, then `begin(200)` (not a digital pin): the state is
`CPP_CD_ACTIVE` while `csPin_` is 200, not `BUILTIN_SDCARD`. -/
theorem detect_state_on_invalid_pin :
    (finalState teensy41 ⟨255, 0, none⟩
      [Call.begin 254 false, Call.begin 200 false]).cardPreviouslyPresent = CPP_CD_ACTIVE ∧
    (finalState teensy41 ⟨255, 0, none⟩
      [Call.begin 254 false, Call.begin 200 false]).csPin_ = 200 ∧
    teensy41.BUILTIN_SDCARD ≠ some (finalState teensy41 ⟨255, 0, none⟩
      [Call.begin 254 false, Call.begin 200 false]).csPin_ := by
  decide

/-- C14 (amended): over every sequence of `mediaPresent` calls and of `begin`
calls whose pin is `BUILTIN_SDCARD` or a digital pin, from the initial state
`0`: whenever the state after a call is `CPP_CD_ACTIVE` or `CPP_CD_DETECTED`,
`csPin_` is `BUILTIN_SDCARD`. -/
theorem detect_states_only_on_builtin (P : Platform) (s : SDClass) (cs : List Call)
    (h0 : s.cardPreviouslyPresent = 0) (hv : ∀ c ∈ cs, Call.validPin P c) :
    ∀ o ∈ run P s cs,
      o.state.cardPreviouslyPresent = CPP_CD_ACTIVE ∨
        o.state.cardPreviouslyPresent = CPP_CD_DETECTED →
      P.BUILTIN_SDCARD = some o.state.csPin_ := by
  refine run_detect_inv P cs s ?_ hv
  rw [h0]
  intro h
  rcases h with h | h <;> exact absurd h (by decide)

/-- Witness of `detect_states_only_on_builtin`: Teensy 4.1; failed
`begin(254)`, a check that detects the card but cannot restart, `begin(10)`
that mounts, a check that finds status `0`. -/
theorem detect_states_only_on_builtin_witness :
    (run teensy41 ⟨255, 0, none⟩
      [Call.begin 254 false, Call.mediaPresent ⟨true, 0, false, false, true, 100⟩,
       Call.begin 10 true, Call.mediaPresent ⟨true, 0, false, false, true, 200⟩]).map
      (fun o => o.state.cardPreviouslyPresent)
      = [CPP_CD_ACTIVE, CPP_CD_DETECTED, CPP_PRESENT, 0] ∧
    (run teensy41 ⟨255, 0, none⟩
      [Call.begin 254 false, Call.mediaPresent ⟨true, 0, false, false, true, 100⟩,
       Call.begin 10 true, Call.mediaPresent ⟨true, 0, false, false, true, 200⟩]).all
      (fun o => decide (o.state.cardPreviouslyPresent = CPP_CD_ACTIVE ∨
          o.state.cardPreviouslyPresent = CPP_CD_DETECTED →
        teensy41.BUILTIN_SDCARD = some o.state.csPin_)) = true :=
  ⟨by decide,
   List.all_eq_true.mpr fun o ho => decide_eq_true
    (detect_states_only_on_builtin teensy41 ⟨255, 0, none⟩
      [Call.begin 254 false, Call.mediaPresent ⟨true, 0, false, false, true, 100⟩,
       Call.begin 10 true, Call.mediaPresent ⟨true, 0, false, false, true, 200⟩]
      rfl (by decide) o ho)⟩

/-! ## What a `mediaPresent` call confirms -/

/-- C15: a `mediaPresent` call returns `true` if and only if there is a card
handle and the confirmation made by the call succeeded: a restart was called
and succeeded, or the state was `CPP_PRESENT` with a status word that is
neither `0` nor `0xFFFFFFFF`, or the state was `CPP_PRESENT` with the status
word `0xFFFFFFFF` and a successful CID read.  A failed restart or a failed CID
read yields `false`, and the state changes to `CPP_PRESENT` only in a call
whose restart succeeded. -/
theorem mediaPresent_true_iff (P : Platform) (s : SDClass) (w : Env) :
    ((mediaPresent P s w).ret = true ↔
      w.card = true ∧
      ((Event.restart ∈ (mediaPresent P s w).trace ∧ w.restart = true) ∨
       (s.cardPreviouslyPresent = CPP_PRESENT ∧ statusWord P w ≠ 0 ∧
          statusWord P w ≠ 0xFFFFFFFF) ∨
       (s.cardPreviouslyPresent = CPP_PRESENT ∧ statusWord P w = 0xFFFFFFFF ∧
          w.readCID = true))) ∧
    (Event.restart ∈ (mediaPresent P s w).trace → w.restart = false →
      (mediaPresent P s w).ret = false) ∧
    (Event.readCID ∈ (mediaPresent P s w).trace → w.readCID = false →
      (mediaPresent P s w).ret = false) ∧
    (s.cardPreviouslyPresent ≠ CPP_PRESENT →
      (mediaPresent P s w).state.cardPreviouslyPresent = CPP_PRESENT →
      Event.restart ∈ (mediaPresent P s w).trace ∧ w.restart = true) := by
  unfold mediaPresent
  simp only []
  split_ifs <;> cases hr : w.restart <;>
    simp_all [CPP_PRESENT, CPP_CD_ACTIVE, CPP_CD_DETECTED]

/-- Witness of `mediaPresent_true_iff`: Teensy 4.1, SPI pin 10, state `0`,
stale card handle, failing restart: the call returns `false`. -/
theorem mediaPresent_true_iff_witness :
    Event.restart ∈ (mediaPresent teensy41 ⟨10, 0, none⟩
      ⟨true, 0x900, true, false, true, 100⟩).trace ∧
    (mediaPresent teensy41 ⟨10, 0, none⟩ ⟨true, 0x900, true, false, true, 100⟩).ret = false :=
  ⟨by decide,
   (mediaPresent_true_iff teensy41 ⟨10, 0, none⟩
      ⟨true, 0x900, true, false, true, 100⟩).2.1 (by decide) rfl⟩

/-- C16: on the dedicated interface, a `mediaPresent` call made with a card
handle in a state that is none of `CPP_PRESENT`, `CPP_CD_ACTIVE`,
`CPP_CD_DETECTED` makes one external call, `sdfs.restart` (no pin read, no
status query), returns its result, and ends in `CPP_PRESENT` on success or
`CPP_CD_DETECTED` on failure.  State `0`, which `begin(BUILTIN_SDCARD)` leaves
after a successful mount, is such a state. -/
theorem mediaPresent_builtin_other_state (P : Platform) (b : Nat)
    (hB : P.BUILTIN_SDCARD = some b) :
    (∀ (s : SDClass) (w : Env), s.csPin_ = b → w.card = true →
      s.cardPreviouslyPresent ≠ CPP_PRESENT → s.cardPreviouslyPresent ≠ CPP_CD_ACTIVE →
      s.cardPreviouslyPresent ≠ CPP_CD_DETECTED →
      (mediaPresent P s w).trace = [Event.restart] ∧
      (mediaPresent P s w).ret = w.restart ∧
      (w.restart = true → (mediaPresent P s w).state.cardPreviouslyPresent = CPP_PRESENT) ∧
      (w.restart = false →
        (mediaPresent P s w).state.cardPreviouslyPresent = CPP_CD_DETECTED)) ∧
    (∀ (s0 : SDClass) (w : Env), w.card = true →
      (begin P s0 b true).ret = true ∧
      (begin P s0 b true).state.cardPreviouslyPresent = 0 ∧
      (mediaPresent P (begin P s0 b true).state w).trace = [Event.restart] ∧
      (mediaPresent P (begin P s0 b true).state w).ret = w.restart ∧
      (mediaPresent P (begin P s0 b true).state w).state.cardPreviouslyPresent
        = if w.restart then CPP_PRESENT else CPP_CD_DETECTED) := by
  refine ⟨fun s w hcs hc hp hA hD => ?_, fun s0 w hc => ?_⟩
  · subst hcs
    cases hr : w.restart <;> simp [mediaPresent, hc, hp, hA, hD, hB, hr]
  · cases hr : w.restart <;>
      simp [begin, mediaPresent, hB, hc, hr, CPP_PRESENT, CPP_CD_ACTIVE, CPP_CD_DETECTED]

/-- Witness of `mediaPresent_builtin_other_state`: Teensy 4.1, `begin(254)`
mounts, the first check restarts the volume and the restart fails. -/
theorem mediaPresent_builtin_other_state_witness :
    teensy41.BUILTIN_SDCARD = some 254 ∧
    (begin teensy41 ⟨255, 0, none⟩ 254 true).ret = true ∧
    (begin teensy41 ⟨255, 0, none⟩ 254 true).state.cardPreviouslyPresent = 0 ∧
    (mediaPresent teensy41 (begin teensy41 ⟨255, 0, none⟩ 254 true).state
      ⟨true, 0x900, true, false, false, 100⟩).trace = [Event.restart] ∧
    (mediaPresent teensy41 (begin teensy41 ⟨255, 0, none⟩ 254 true).state
      ⟨true, 0x900, true, false, false, 100⟩).ret = false ∧
    (mediaPresent teensy41 (begin teensy41 ⟨255, 0, none⟩ 254 true).state
      ⟨true, 0x900, true, false, false, 100⟩).state.cardPreviouslyPresent
        = CPP_CD_DETECTED :=
  ⟨rfl, (mediaPresent_builtin_other_state teensy41 254 rfl).2 ⟨255, 0, none⟩
    ⟨true, 0x900, true, false, false, 100⟩ rfl⟩

/-- C17: `mediaPresent` keeps `cardPreviouslyPresent` among the four values
`0`, `CPP_PRESENT`, `CPP_CD_ACTIVE`, `CPP_CD_DETECTED` and never changes
`csPin_`; when `csPin_` is not the dedicated interface and the state is `0` or
`CPP_PRESENT`, every `mediaPresent` call leaves the state `0` or `CPP_PRESENT`,
and so does every `begin` call with a digital pin of the general-purpose
interface. -/
theorem mediaPresent_state_values (P : Platform) (s : SDClass) (w : Env) :
    ((s.cardPreviouslyPresent = 0 ∨ s.cardPreviouslyPresent = CPP_PRESENT ∨
        s.cardPreviouslyPresent = CPP_CD_ACTIVE ∨ s.cardPreviouslyPresent = CPP_CD_DETECTED) →
      ((mediaPresent P s w).state.cardPreviouslyPresent = 0 ∨
        (mediaPresent P s w).state.cardPreviouslyPresent = CPP_PRESENT ∨
        (mediaPresent P s w).state.cardPreviouslyPresent = CPP_CD_ACTIVE ∨
        (mediaPresent P s w).state.cardPreviouslyPresent = CPP_CD_DETECTED)) ∧
    (mediaPresent P s w).state.csPin_ = s.csPin_ ∧
    (P.BUILTIN_SDCARD ≠ some s.csPin_ →
      (s.cardPreviouslyPresent = 0 ∨ s.cardPreviouslyPresent = CPP_PRESENT) →
      ((mediaPresent P s w).state.cardPreviouslyPresent = 0 ∨
        (mediaPresent P s w).state.cardPreviouslyPresent = CPP_PRESENT)) ∧
    (∀ (csPin : Nat) (mount : Bool), P.BUILTIN_SDCARD ≠ some csPin →
      csPin < P.NUM_DIGITAL_PINS →
      ((begin P s csPin mount).state.cardPreviouslyPresent = 0 ∨
        (begin P s csPin mount).state.cardPreviouslyPresent = CPP_PRESENT)) := by
  refine ⟨?_, mediaPresent_csPin P s w, ?_, ?_⟩
  · intro h
    unfold mediaPresent
    simp only []
    split_ifs <;> cases hr : w.restart <;> simp_all
  · intro hb h
    unfold mediaPresent
    simp only [hb, if_false]
    split_ifs <;> cases hr : w.restart <;> simp_all
  · intro csPin mount hb hn
    cases mount <;> simp [begin, hb, hn]

/-- Witness of `mediaPresent_state_values`: Teensy 4.1, SPI pin 10, state
`CPP_PRESENT`, status `0`: the state becomes `0`, `csPin_` stays 10. -/
theorem mediaPresent_state_values_witness :
    teensy41.BUILTIN_SDCARD ≠ some 10 ∧
    (mediaPresent teensy41 ⟨10, CPP_PRESENT, none⟩
      ⟨true, 0, true, true, true, 100⟩).state.csPin_ = 10 ∧
    ((mediaPresent teensy41 ⟨10, CPP_PRESENT, none⟩
      ⟨true, 0, true, true, true, 100⟩).state.cardPreviouslyPresent = 0 ∨
     (mediaPresent teensy41 ⟨10, CPP_PRESENT, none⟩
      ⟨true, 0, true, true, true, 100⟩).state.cardPreviouslyPresent = CPP_PRESENT) :=
  ⟨by decide,
   (mediaPresent_state_values teensy41 ⟨10, CPP_PRESENT, none⟩
      ⟨true, 0, true, true, true, 100⟩).2.1,
   (mediaPresent_state_values teensy41 ⟨10, CPP_PRESENT, none⟩
      ⟨true, 0, true, true, true, 100⟩).2.2.1 (by decide) (Or.inr rfl)⟩

/-- C18: a `mediaPresent` call calls `sdfs.restart` at most once, and not at
all when the state on entry is `CPP_PRESENT`, whatever the status and the CID
read result. -/
theorem mediaPresent_restart_at_most_once (P : Platform) (s : SDClass) (w : Env) :
    (mediaPresent P s w).trace.countP Event.isRestart ≤ 1 ∧
    (s.cardPreviouslyPresent = CPP_PRESENT →
      (mediaPresent P s w).trace.countP Event.isRestart = 0) := by
  unfold mediaPresent
  simp only []
  split_ifs <;> simp_all [Event.isRestart, List.countP_cons]

/-- Witness of `mediaPresent_restart_at_most_once`: Teensy 4.1, dedicated
interface, state `CPP_PRESENT`, status `0`: no restart. -/
theorem mediaPresent_restart_at_most_once_witness :
    (mediaPresent teensy41 ⟨254, CPP_PRESENT, none⟩
      ⟨true, 0, false, true, true, 100⟩).trace.countP Event.isRestart = 0 :=
  (mediaPresent_restart_at_most_once teensy41 ⟨254, CPP_PRESENT, none⟩
    ⟨true, 0, false, true, true, 100⟩).2 rfl

/-! ## `format` -/

/-- C19 (counterexample): on a build without `__arm__`, a card of 67108865
sectors with a buffer allocated: no formatter is called (the trace is `malloc`,
`free`) and the result is `false`, although the sector count exceeds 67108864
and the exFAT formatter would have succeeded. -/
theorem format_large_card_not_arm :
    spiOnly.arm = false ∧
    (format spiOnly ⟨true, 67108865, true, true, true⟩).trace
      = [FormatEvent.malloc, FormatEvent.free] ∧
    FormatEvent.exFatFormat ∉ (format spiOnly ⟨true, 67108865, true, true, true⟩).trace ∧
    (format spiOnly ⟨true, 67108865, true, true, true⟩).ret = false := by
  decide

/-- C19 (amended): `format` returns `false` without calling a formatter or
`sdfs.restart` when there is no card handle, when the sector count is at most
12288, or when the 512-byte buffer cannot be allocated.  Otherwise: with more
than 67108864 sectors it calls the exFAT formatter on an `__arm__` build, and
on any other build calls no formatter and takes `false` as the result; with at
most 67108864 sectors it calls the FAT formatter; it returns exactly that
result and calls `sdfs.restart` exactly when the result is `true`. -/
theorem format_behaviour (P : Platform) (w : FormatEnv) :
    ((w.card = false ∨ w.sectorCount ≤ 12288 ∨ w.malloc = false) →
      (format P w).ret = false ∧
      FormatEvent.exFatFormat ∉ (format P w).trace ∧
      FormatEvent.fatFormat ∉ (format P w).trace ∧
      FormatEvent.restart ∉ (format P w).trace) ∧
    (w.card = true → 12288 < w.sectorCount → w.malloc = true →
      (67108864 < w.sectorCount → P.arm = true →
        (format P w).ret = w.exFat ∧
        (format P w).trace = [FormatEvent.malloc, FormatEvent.exFatFormat, FormatEvent.free]
          ++ (if w.exFat then [FormatEvent.restart] else [])) ∧
      (67108864 < w.sectorCount → P.arm = false →
        (format P w).ret = false ∧
        (format P w).trace = [FormatEvent.malloc, FormatEvent.free]) ∧
      (w.sectorCount ≤ 67108864 →
        (format P w).ret = w.fat ∧
        (format P w).trace = [FormatEvent.malloc, FormatEvent.fatFormat, FormatEvent.free]
          ++ (if w.fat then [FormatEvent.restart] else [])) ∧
      (FormatEvent.restart ∈ (format P w).trace ↔ (format P w).ret = true)) := by
  refine ⟨fun h => ?_, fun hc hs hm => ⟨fun hb ha => ?_, fun hb ha => ?_, fun hb => ?_, ?_⟩⟩
  · rcases h with h | h | h
    · simp [format, h]
    · simp [format, h]
    · by_cases hs : w.sectorCount ≤ 12288 <;> cases hc : w.card <;> simp [format, h, hs, hc]
  · have hs2 : ¬ w.sectorCount ≤ 12288 := by omega
    cases he : w.exFat <;> simp [format, hc, hs2, hm, hb, ha, he]
  · have hs2 : ¬ w.sectorCount ≤ 12288 := by omega
    simp [format, hc, hs2, hm, hb, ha]
  · have hs2 : ¬ w.sectorCount ≤ 12288 := by omega
    have hb2 : ¬ 67108864 < w.sectorCount := by omega
    cases hf : w.fat <;> simp [format, hc, hs2, hm, hb2, hf]
  · have hs2 : ¬ w.sectorCount ≤ 12288 := by omega
    by_cases hb : 67108864 < w.sectorCount
    · cases ha : P.arm <;> cases he : w.exFat <;> simp [format, hc, hs2, hm, hb, ha, he]
    · cases hf : w.fat <;> simp [format, hc, hs2, hm, hb, hf]

/-- Witness of `format_behaviour`: Teensy 4.1, a card of 100000000 sectors,
the exFAT formatter succeeds and the volume is restarted. -/
theorem format_behaviour_witness :
    (format teensy41 ⟨true, 100000000, true, true, false⟩).ret = true ∧
    (format teensy41 ⟨true, 100000000, true, true, false⟩).trace
      = [FormatEvent.malloc, FormatEvent.exFatFormat, FormatEvent.free, FormatEvent.restart] :=
  ((format_behaviour teensy41 ⟨true, 100000000, true, true, false⟩).2 rfl (by decide)
    rfl).1 (by decide) rfl

end SD
